import Mathlib

/-!
# Verification of the ffmpeg-subtitle-burner pipeline (src/app.py)

Shallow embedding of the request handler `burn_subtitles` and its path
escaping, together with theorems settling the specification claims.

Paths and message strings are modelled as `List Char` (Python `str`).
The external effects of the handler (temp-file creation, writes, process
invocation, removals) are recorded as an event trace; the outcome of the
external transcoder run and the state of the output file after the run
are supplied by an `Env` oracle, since they are outside the program.
-/

namespace SubtitleBurner

/-- The character substitution performed by `path.replace('\\', '/')` in
`burn_subtitles`: every backslash becomes a forward slash. -/
def slashSub (c : Char) : Char :=
  if c = '\\' then '/' else c

/-- `s.replace('\\', '/')` on a Python string: single-character pattern,
so it is a character map. -/
def replaceBackslash (s : List Char) : List Char :=
  s.map slashSub

/-- `s.replace(':', '\\:')` on a Python string: every colon is replaced by
the two-character sequence backslash-colon. -/
def escapeColon : List Char → List Char
  | [] => []
  | c :: cs =>
      if c = ':' then '\\' :: ':' :: escapeColon cs
      else c :: escapeColon cs

/-- The escaping applied in `burn_subtitles` before embedding a path in the
ffmpeg filter expression: `path.replace('\\', '/').replace(':', '\\:')`. -/
def ffmpegEscape (s : List Char) : List Char :=
  escapeColon (replaceBackslash s)

/-- Modelled from the spec: un-escaping an embedded string per the filter
grammar, i.e. removing the escape prefix `\\` in front of each escaped
character.  (The filter grammar itself is not part of src/; this is the
spec-side inverse used to state the round-trip claim.) -/
def unescape : List Char → List Char
  | [] => []
  | c :: cs =>
      if c = '\\' then
        match cs with
        | [] => ['\\']
        | d :: ds => d :: unescape ds
      else c :: unescape cs

/-- An inbound multipart request, as `burn_subtitles` observes it:
whether each part is present in `request.files`, the untrusted original
filenames (used only in log lines, which are not part of the returned
payload or of the filesystem actions), and the uploaded byte sizes. -/
structure Request where
  videoPresent : Bool
  srtPresent : Bool
  videoFilename : List Char
  srtFilename : List Char
  videoSize : Nat
  srtSize : Nat
deriving DecidableEq

/-- Terminal outcome of the `subprocess.run` call: normal completion with
an exit status and captured streams, `subprocess.TimeoutExpired`, or an
exception raised while spawning the process (e.g. `FileNotFoundError`),
which lands in the generic `except Exception` clause. -/
inductive RunOutcome where
  | completed (returncode : Int) (stdout : List Char) (stderr : List Char)
  | timedOut
  | spawnFailed (etype : List Char) (emsg : List Char)
deriving DecidableEq

/-- The request-scoped environment: the three unique temp paths handed out
by `tempfile.mkstemp`, the transcoder outcome, and the state of the output
path after the run (`os.path.exists` / `os.path.getsize`). -/
structure Env where
  videoPath : List Char
  srtPath : List Char
  outputPath : List Char
  outcome : RunOutcome
  outputExists : Bool
  outputSize : Nat
deriving DecidableEq

/-- A JSON value occurring in an error payload of `burn_subtitles`. -/
inductive JVal where
  | s (v : List Char)
  | n (v : Int)
deriving DecidableEq

/-- What `burn_subtitles` returns to Flask: either `jsonify(body), status`
or `send_file(path, mimetype, as_attachment, download_name)`. -/
inductive Response where
  | json (status : Nat) (body : List (List Char × JVal))
  | sendFile (path : List Char) (mimetype : List Char) (downloadName : List Char)
deriving DecidableEq

/-- A filesystem / process action performed by the handler, in order. -/
inductive FsEvent where
  | createTemp (path : List Char)
  | writeFile (path : List Char)
  | runProc (cmd : List (List Char))
  | removeFile (path : List Char)
deriving DecidableEq

def kError : List Char := "error".toList
def kReturnCode : List Char := "return_code".toList
def kStderr : List Char := "stderr".toList
def kDetails : List Char := "details".toList
def kType : List Char := "type".toList

def mMissingVideo : List Char := "Missing video file".toList
def mMissingSrt : List Char := "Missing srt file".toList
def mFfmpegFailed : List Char := "FFmpeg processing failed".toList
def mNotCreated : List Char := "Output file not created".toList
def mEmpty : List Char := "Output file is empty".toList
def mTimeout : List Char := "Processing timeout - video too large or complex".toList
def mServerError : List Char := "Server error".toList

/-- Python `s[-1000:]`: the last `n` characters of `s` (all of `s` when it
is shorter). -/
def lastChars (n : Nat) (s : List Char) : List Char :=
  s.drop (s.length - n)

/-- The argument vector built in `burn_subtitles` (the `cmd` list): the raw
video path follows `-i`; only the subtitle path appears escaped, inside the
`-vf` value `subtitles=` ++ escaped path. -/
def ffmpegCmd (video_path srt_path output_path : List Char) : List (List Char) :=
  [ "ffmpeg".toList, "-y".toList,
    "-i".toList, video_path,
    "-vf".toList, "subtitles=".toList ++ ffmpegEscape srt_path,
    "-c:a".toList, "copy".toList,
    "-c:v".toList, "libx264".toList,
    "-preset".toList, "ultrafast".toList,
    "-crf".toList, "23".toList,
    output_path ]

/-- The staging actions: three `mkstemp` allocations followed by saving the
two uploads. -/
def stagingTrace (env : Env) : List FsEvent :=
  [ FsEvent.createTemp env.videoPath,
    FsEvent.createTemp env.srtPath,
    FsEvent.createTemp env.outputPath,
    FsEvent.writeFile env.videoPath,
    FsEvent.writeFile env.srtPath ]

/-- The `finally` block: removes the two staged input files (each exists,
having been created and never removed earlier); the output path is not
touched (source comment: do not delete `output_path` yet). -/
def cleanupTrace (env : Env) : List FsEvent :=
  [ FsEvent.removeFile env.videoPath,
    FsEvent.removeFile env.srtPath ]

set_option linter.unusedVariables false in
/-- Shallow embedding of the `/burn-subtitles` handler `burn_subtitles` in
src/app.py: returns the response together with the ordered trace of
filesystem / process actions.  Mirrors the source control flow: presence
checks, staging, escaping, command synthesis, bounded run, exit-status
check, output existence and size validation, `send_file`, with the
`finally` cleanup appended on every path that staged files. -/
def burn_subtitles (req : Request) (env : Env) : Response × List FsEvent :=
  if req.videoPresent = false then
    (Response.json 400 [(kError, JVal.s mMissingVideo)], [])
  else if req.srtPresent = false then
    (Response.json 400 [(kError, JVal.s mMissingSrt)], [])
  else
    let video_path_escaped := ffmpegEscape env.videoPath
    let srt_path_escaped := ffmpegEscape env.srtPath
    let cmd := ffmpegCmd env.videoPath env.srtPath env.outputPath
    let trace := stagingTrace env ++ [FsEvent.runProc cmd] ++ cleanupTrace env
    match env.outcome with
    | RunOutcome.timedOut =>
        (Response.json 408 [(kError, JVal.s mTimeout)], trace)
    | RunOutcome.spawnFailed etype emsg =>
        (Response.json 500
          [(kError, JVal.s mServerError), (kDetails, JVal.s emsg), (kType, JVal.s etype)],
          trace)
    | RunOutcome.completed rc _stdout stderr =>
        if rc ≠ 0 then
          (Response.json 500
            [(kError, JVal.s mFfmpegFailed), (kReturnCode, JVal.n rc),
             (kStderr, JVal.s (lastChars 1000 stderr))],
            trace)
        else if env.outputExists = false then
          (Response.json 500 [(kError, JVal.s mNotCreated)], trace)
        else if env.outputSize = 0 then
          (Response.json 500 [(kError, JVal.s mEmpty)], trace)
        else
          (Response.sendFile env.outputPath "video/mp4".toList
            "video_with_romanian_subs.mp4".toList,
            trace)

/-- Recognizer: the event removes path `p`. -/
def isRemoveOf (p : List Char) : FsEvent → Bool
  | FsEvent.removeFile q => q == p
  | _ => false

/-- Recognizer: the event creates a temp file at path `p`. -/
def isCreateOf (p : List Char) : FsEvent → Bool
  | FsEvent.createTemp q => q == p
  | _ => false

/-- Recognizer: the event is a transcoder invocation. -/
def isRunEvent : FsEvent → Bool
  | FsEvent.runProc _ => true
  | _ => false

/-- Path `p` was created during the trace. -/
def createdIn (t : List FsEvent) (p : List Char) : Bool := t.any (isCreateOf p)

/-- Path `p` was removed during the trace. -/
def removedIn (t : List FsEvent) (p : List Char) : Bool := t.any (isRemoveOf p)

/-- The transcoder was invoked during the trace. -/
def ranTranscoder (t : List FsEvent) : Bool := t.any isRunEvent

/-- Number of times path `p` is removed during the trace. -/
def removeCount (t : List FsEvent) (p : List Char) : Nat := t.countP (isRemoveOf p)

/-- The per-character transform that the two `replace` calls of the source
amount to: a backslash becomes a forward slash, a colon gains a backslash
escape prefix, every other character is kept. -/
def escChar (c : Char) : List Char :=
  if c = '\\' then ['/'] else if c = ':' then ['\\', ':'] else [c]

/-- `escChar` applied across a string. -/
def escCharAll : List Char → List Char
  | [] => []
  | c :: cs => escChar c ++ escCharAll cs

theorem replaceBackslash_eq_self (s : List Char) (h : '\\' ∉ s) :
    replaceBackslash s = s := by
  induction s with
  | nil => rfl
  | cons c cs ih =>
      simp only [List.mem_cons, not_or] at h
      have hc : c ≠ '\\' := fun hc => h.1 hc.symm
      simp only [replaceBackslash, List.map_cons, slashSub, if_neg hc]
      exact congrArg (c :: ·) (ih h.2)

theorem escapeColon_eq_self (s : List Char) (h : ':' ∉ s) :
    escapeColon s = s := by
  induction s with
  | nil => rfl
  | cons c cs ih =>
      simp only [List.mem_cons, not_or] at h
      have hc : c ≠ ':' := fun hcc => h.1 hcc.symm
      simp only [escapeColon, if_neg hc]
      exact congrArg (c :: ·) (ih h.2)

theorem ffmpegEscape_eq_self (s : List Char) (hc : ':' ∉ s) (hb : '\\' ∉ s) :
    ffmpegEscape s = s := by
  unfold ffmpegEscape
  rw [replaceBackslash_eq_self s hb, escapeColon_eq_self s hc]

theorem replaceBackslash_cons (c : Char) (l : List Char) :
    replaceBackslash (c :: l) = slashSub c :: replaceBackslash l := rfl

theorem escapeColon_cons_colon (l : List Char) :
    escapeColon (':' :: l) = '\\' :: ':' :: escapeColon l := rfl

theorem escapeColon_cons_ne (c : Char) (l : List Char) (h : c ≠ ':') :
    escapeColon (c :: l) = c :: escapeColon l := by
  rw [show escapeColon (c :: l)
        = if c = ':' then '\\' :: ':' :: escapeColon l else c :: escapeColon l from rfl,
    if_neg h]

theorem unescape_cons_esc (d : Char) (l : List Char) :
    unescape ('\\' :: d :: l) = d :: unescape l := rfl

theorem unescape_cons_ne (c : Char) (l : List Char) (h : c ≠ '\\') :
    unescape (c :: l) = c :: unescape l := by
  rw [unescape.eq_def]
  simp only [if_neg h]

theorem unescape_escapeColon (s : List Char) (h : '\\' ∉ s) :
    unescape (escapeColon s) = s := by
  induction s with
  | nil => rfl
  | cons c cs ih =>
      simp only [List.mem_cons, not_or] at h
      have hc : c ≠ '\\' := fun hcc => h.1 hcc.symm
      by_cases hcol : c = ':'
      · subst hcol
        rw [escapeColon_cons_colon, unescape_cons_esc]
        exact congrArg (':' :: ·) (ih h.2)
      · rw [escapeColon_cons_ne c _ hcol, unescape_cons_ne c _ hc]
        exact congrArg (c :: ·) (ih h.2)

theorem ffmpegEscape_roundtrip (s : List Char) (hb : '\\' ∉ s) :
    unescape (ffmpegEscape s) = s := by
  unfold ffmpegEscape
  rw [replaceBackslash_eq_self s hb, unescape_escapeColon s hb]

theorem ffmpegEscape_cons (c : Char) (l : List Char) :
    ffmpegEscape (c :: l) = escChar c ++ ffmpegEscape l := by
  unfold ffmpegEscape
  rw [replaceBackslash_cons]
  by_cases hb : c = '\\'
  · subst hb
    rw [show slashSub '\\' = '/' from rfl,
      escapeColon_cons_ne '/' _ (by decide), show escChar '\\' = ['/'] from rfl]
    rfl
  · rw [show slashSub c = c from if_neg hb]
    by_cases hcol : c = ':'
    · subst hcol
      rw [escapeColon_cons_colon, show escChar ':' = ['\\', ':'] from by
        unfold escChar
        rw [if_neg (by decide : (':' : Char) ≠ '\\'), if_pos rfl]]
      rfl
    · rw [escapeColon_cons_ne c _ hcol, show escChar c = [c] from by
        unfold escChar
        rw [if_neg hb, if_neg hcol]]
      rfl

theorem ffmpegEscape_eq_escCharAll (s : List Char) :
    ffmpegEscape s = escCharAll s := by
  induction s with
  | nil => rfl
  | cons c cs ih =>
      rw [ffmpegEscape_cons, ih]
      rfl

/-- Whenever both uploads are present, the action trace is staging, then
one transcoder invocation, then the `finally` cleanup — identical on every
branch of the execution outcome. -/
theorem burn_trace (req : Request) (env : Env)
    (hv : req.videoPresent = true) (hs : req.srtPresent = true) :
    (burn_subtitles req env).2 =
      stagingTrace env
        ++ [FsEvent.runProc (ffmpegCmd env.videoPath env.srtPath env.outputPath)]
        ++ cleanupTrace env := by
  simp only [burn_subtitles, hv, hs, Bool.true_eq_false, if_false]
  split
  · rfl
  · rfl
  · split
    · rfl
    · split
      · rfl
      · split
        · rfl
        · rfl

theorem burn_resp_timeout (req : Request) (env : Env)
    (hv : req.videoPresent = true) (hs : req.srtPresent = true)
    (ho : env.outcome = RunOutcome.timedOut) :
    (burn_subtitles req env).1 = Response.json 408 [(kError, JVal.s mTimeout)] := by
  simp only [burn_subtitles, hv, hs, Bool.true_eq_false, if_false, ho]

theorem burn_resp_spawnFailed (req : Request) (env : Env)
    (hv : req.videoPresent = true) (hs : req.srtPresent = true)
    (ty msg : List Char) (ho : env.outcome = RunOutcome.spawnFailed ty msg) :
    (burn_subtitles req env).1 =
      Response.json 500
        [(kError, JVal.s mServerError), (kDetails, JVal.s msg), (kType, JVal.s ty)] := by
  simp only [burn_subtitles, hv, hs, Bool.true_eq_false, if_false, ho]

theorem burn_resp_exitFail (req : Request) (env : Env)
    (hv : req.videoPresent = true) (hs : req.srtPresent = true)
    (rc : Int) (o e : List Char)
    (ho : env.outcome = RunOutcome.completed rc o e) (hrc : rc ≠ 0) :
    (burn_subtitles req env).1 =
      Response.json 500
        [(kError, JVal.s mFfmpegFailed), (kReturnCode, JVal.n rc),
         (kStderr, JVal.s (lastChars 1000 e))] := by
  simp only [burn_subtitles, hv, hs, Bool.true_eq_false, if_false, ho]
  rw [if_pos hrc]

theorem burn_resp_notCreated (req : Request) (env : Env)
    (hv : req.videoPresent = true) (hs : req.srtPresent = true)
    (o e : List Char) (ho : env.outcome = RunOutcome.completed 0 o e)
    (he : env.outputExists = false) :
    (burn_subtitles req env).1 = Response.json 500 [(kError, JVal.s mNotCreated)] := by
  simp only [burn_subtitles, hv, hs, Bool.true_eq_false, if_false, ho]
  rw [if_neg (by simp : ¬((0 : Int) ≠ 0)), if_pos he]

theorem burn_resp_emptyOutput (req : Request) (env : Env)
    (hv : req.videoPresent = true) (hs : req.srtPresent = true)
    (o e : List Char) (ho : env.outcome = RunOutcome.completed 0 o e)
    (he : env.outputExists = true) (hz : env.outputSize = 0) :
    (burn_subtitles req env).1 = Response.json 500 [(kError, JVal.s mEmpty)] := by
  simp only [burn_subtitles, hv, hs, Bool.true_eq_false, if_false, ho]
  rw [if_neg (by simp : ¬((0 : Int) ≠ 0)),
    if_neg (by simp [he] : ¬(env.outputExists = false)), if_pos hz]

theorem burn_resp_success (req : Request) (env : Env)
    (hv : req.videoPresent = true) (hs : req.srtPresent = true)
    (o e : List Char) (ho : env.outcome = RunOutcome.completed 0 o e)
    (he : env.outputExists = true) (hz : env.outputSize ≠ 0) :
    (burn_subtitles req env).1 =
      Response.sendFile env.outputPath "video/mp4".toList
        "video_with_romanian_subs.mp4".toList := by
  simp only [burn_subtitles, hv, hs, Bool.true_eq_false, if_false, ho]
  rw [if_neg (by simp : ¬((0 : Int) ≠ 0)),
    if_neg (by simp [he] : ¬(env.outputExists = false)), if_neg hz]

theorem one_le_length_escChar (c : Char) : 1 ≤ (escChar c).length := by
  unfold escChar
  split
  · simp
  · split <;> simp

theorem length_le_escCharAll (s : List Char) : s.length ≤ (escCharAll s).length := by
  induction s with
  | nil => simp [escCharAll]
  | cons c cs ih =>
      simp only [escCharAll, List.length_append, List.length_cons]
      have h1 := one_le_length_escChar c
      omega

theorem length_lt_escCharAll (s : List Char) (h : ':' ∈ s) :
    s.length < (escCharAll s).length := by
  induction s with
  | nil => cases h
  | cons c cs ih =>
      simp only [escCharAll, List.length_append, List.length_cons]
      rcases List.mem_cons.mp h with h | h
      · have h2 : (escChar ':').length = 2 := by decide
        have h3 := length_le_escCharAll cs
        rw [← h]
        omega
      · have h1 := one_le_length_escChar c
        have h2 := ih h
        omega

theorem ffmpegEscape_ne_self_of_colon (s : List Char) (h : ':' ∈ s) :
    ffmpegEscape s ≠ s := by
  intro heq
  have hlt := length_lt_escCharAll s h
  rw [← ffmpegEscape_eq_escCharAll, heq] at hlt
  exact lt_irrefl _ hlt

theorem backslash_mem_escCharAll (s : List Char) (h : ':' ∈ s) :
    '\\' ∈ escCharAll s := by
  induction s with
  | nil => cases h
  | cons c cs ih =>
      rcases List.mem_cons.mp h with h | h
      · rw [← h]
        simp [escCharAll, escChar]
      · simp only [escCharAll]
        exact List.mem_append_right _ (ih h)

theorem backslash_mem_ffmpegEscape (s : List Char) (h : ':' ∈ s) :
    '\\' ∈ ffmpegEscape s := by
  rw [ffmpegEscape_eq_escCharAll]
  exact backslash_mem_escCharAll s h

/-- Claim C1: the claim as stated is false: for the path `a\b`, which contains a
backslash-equivalent structural character, the escaping of `burn_subtitles`
replaces the backslash with a forward slash, so un-escaping the embedded
string does not yield back the literal original path. -/
theorem c1_roundtrip_counterexample :
    '\\' ∈ "a\\b".toList ∧ unescape (ffmpegEscape "a\\b".toList) ≠ "a\\b".toList := by
  decide

/-- Claim C1 (amended): for every subtitle path free of backslashes — in
particular any such path containing colons — un-escaping the escaped path
per the filter grammar yields back the literal original path; and in
general the transform prefixes each colon with the escape character,
replaces each backslash with a forward slash, and alters no other
character. -/
theorem c1_escape_roundtrip (p : List Char) (hb : '\\' ∉ p) :
    unescape (ffmpegEscape p) = p ∧ ffmpegEscape p = escCharAll p :=
  ⟨ffmpegEscape_roundtrip p hb, ffmpegEscape_eq_escCharAll p⟩

/-- Witness for C1 (amended) at the concrete colon-containing path `C:/tmp/s.srt`. -/
theorem c1_escape_roundtrip_witness :
    unescape (ffmpegEscape "C:/tmp/s.srt".toList) = "C:/tmp/s.srt".toList ∧
    ffmpegEscape "C:/tmp/s.srt".toList = escCharAll "C:/tmp/s.srt".toList :=
  c1_escape_roundtrip "C:/tmp/s.srt".toList (by decide)

/-- Claim C10: for a subtitle path containing neither a colon nor a backslash the
escaping transform is the identity, and the `-vf` argument of the command
is the string `subtitles=` concatenated with the staged subtitle path
verbatim. -/
theorem c10_identity_escape (sp vp op : List Char) (hc : ':' ∉ sp) (hb : '\\' ∉ sp) :
    ffmpegEscape sp = sp ∧
    (ffmpegCmd vp sp op)[5]? = some ("subtitles=".toList ++ sp) := by
  refine ⟨ffmpegEscape_eq_self sp hc hb, ?_⟩
  simp [ffmpegCmd, ffmpegEscape_eq_self sp hc hb]

/-- Witness for C10 at concrete staged paths. -/
theorem c10_identity_escape_witness :
    ffmpegEscape "/tmp/subs_x.srt".toList = "/tmp/subs_x.srt".toList ∧
    (ffmpegCmd "/tmp/video_x.mp4".toList "/tmp/subs_x.srt".toList
        "/tmp/output_x.mp4".toList)[5]?
      = some ("subtitles=".toList ++ "/tmp/subs_x.srt".toList) :=
  c10_identity_escape "/tmp/subs_x.srt".toList "/tmp/video_x.mp4".toList
    "/tmp/output_x.mp4".toList (by decide) (by decide)

/-- Claim C2: the claim is false on the code: on a failure path (here a
transcoder exit status of 1) the output temp file has been created but is
never removed, so the output path does remain on disk after the request
ends. -/
theorem c2_output_deletion_counterexample :
    createdIn (burn_subtitles (Request.mk true true [] [] 5 5)
        (Env.mk "v".toList "s".toList "o".toList
          (RunOutcome.completed 1 [] []) true 10)).2 "o".toList = true ∧
    removedIn (burn_subtitles (Request.mk true true [] [] 5 5)
        (Env.mk "v".toList "s".toList "o".toList
          (RunOutcome.completed 1 [] []) true 10)).2 "o".toList = false := by
  decide

/-- Claim C2 (amended): the handler never deletes the output temp file on
any path — neither after a successful hand-off nor on a failure path; the
`finally` cleanup removes only the two staged inputs, so whenever staging
happened the output path remains on disk after the request ends. -/
theorem c2_output_never_deleted (req : Request) (env : Env)
    (h1 : env.outputPath ≠ env.videoPath) (h2 : env.outputPath ≠ env.srtPath) :
    removedIn (burn_subtitles req env).2 env.outputPath = false ∧
    (req.videoPresent = true → req.srtPresent = true →
      createdIn (burn_subtitles req env).2 env.outputPath = true) := by
  by_cases hv : req.videoPresent = true
  · by_cases hs : req.srtPresent = true
    · rw [burn_trace req env hv hs]
      constructor
      · simp [removedIn, stagingTrace, cleanupTrace, isRemoveOf, beq_iff_eq,
          Ne.symm h1, Ne.symm h2]
      · intro _ _
        simp [createdIn, stagingTrace, cleanupTrace, isCreateOf]
    · have hs' : req.srtPresent = false := by simpa using hs
      constructor
      · simp [burn_subtitles, hv, hs', removedIn]
      · intro _ hcon
        rw [hcon] at hs'
        exact Bool.noConfusion hs'
  · have hv' : req.videoPresent = false := by simpa using hv
    constructor
    · simp [burn_subtitles, hv', removedIn]
    · intro hcon _
      rw [hcon] at hv'
      exact Bool.noConfusion hv'

/-- Witness for C2 (amended) at a concrete timed-out request. -/
theorem c2_output_never_deleted_witness :
    removedIn (burn_subtitles (Request.mk true true [] [] 5 5)
        (Env.mk "v".toList "s".toList "o".toList
          RunOutcome.timedOut true 10)).2 "o".toList = false ∧
    createdIn (burn_subtitles (Request.mk true true [] [] 5 5)
        (Env.mk "v".toList "s".toList "o".toList
          RunOutcome.timedOut true 10)).2 "o".toList = true := by
  have h := c2_output_never_deleted (Request.mk true true [] [] 5 5)
    (Env.mk "v".toList "s".toList "o".toList RunOutcome.timedOut true 10)
    (by decide) (by decide)
  exact ⟨h.1, h.2 rfl rfl⟩

/-- Claim C3: the claim is false on the code: a request whose two uploads
are present but zero-byte is not rejected with a client error: it proceeds
to staging and transcoding and (here, with a cooperating transcoder) even
succeeds. -/
theorem c3_empty_upload_counterexample :
    ranTranscoder (burn_subtitles (Request.mk true true [] [] 0 0)
      (Env.mk "v".toList "s".toList "o".toList
        (RunOutcome.completed 0 [] []) true 7)).2 = true ∧
    (burn_subtitles (Request.mk true true [] [] 0 0)
      (Env.mk "v".toList "s".toList "o".toList
        (RunOutcome.completed 0 [] []) true 7)).1
      = Response.sendFile "o".toList "video/mp4".toList
          "video_with_romanian_subs.mp4".toList := by
  decide

/-- Claim C3 (amended): the pipeline checks only the presence of the two
uploads: upload sizes are never examined (requests identical up to sizes
behave identically), a missing part receives the 400 client error with no
filesystem activity, and whenever both parts are present — even zero-byte
ones — the pipeline proceeds to staging and invokes the transcoder. -/
theorem c3_presence_only_check (vp sp : Bool) (f g : List Char)
    (n₁ n₂ m₁ m₂ : Nat) (env : Env) :
    burn_subtitles (Request.mk vp sp f g n₁ m₁) env
      = burn_subtitles (Request.mk vp sp f g n₂ m₂) env ∧
    (vp = false →
      burn_subtitles (Request.mk vp sp f g n₁ m₁) env
        = (Response.json 400 [(kError, JVal.s mMissingVideo)], [])) ∧
    (vp = true → sp = false →
      burn_subtitles (Request.mk vp sp f g n₁ m₁) env
        = (Response.json 400 [(kError, JVal.s mMissingSrt)], [])) ∧
    (vp = true → sp = true →
      ranTranscoder (burn_subtitles (Request.mk vp sp f g n₁ m₁) env).2 = true) := by
  refine ⟨rfl, ?_, ?_, ?_⟩
  · intro h
    subst h
    simp [burn_subtitles]
  · intro h h'
    subst h
    subst h'
    simp [burn_subtitles]
  · intro h h'
    rw [burn_trace (Request.mk vp sp f g n₁ m₁) env h h']
    simp [ranTranscoder, stagingTrace, cleanupTrace, isRunEvent]

/-- Witness for C3 (amended): a present-but-zero-byte pair of uploads still
reaches the transcoder. -/
theorem c3_presence_only_check_witness :
    ranTranscoder (burn_subtitles (Request.mk true true [] [] 0 0)
      (Env.mk "v".toList "s".toList "o".toList
        RunOutcome.timedOut true 7)).2 = true :=
  (c3_presence_only_check true true [] [] 0 1 0 2
    (Env.mk "v".toList "s".toList "o".toList RunOutcome.timedOut true 7)).2.2.2 rfl rfl

/-- Claim C4: the four terminal execution states are distinguished in the
payload returned to the caller: completed-success streams the output file,
completed-failure returns the 500 `FFmpeg processing failed` payload with
exit status and bounded stderr tail, timed-out returns the 408 timeout
payload, and spawn-failed returns the 500 `Server error` payload carrying
the exception type — and these four payloads are pairwise distinct. -/
theorem c4_terminal_states_distinct (req : Request)
    (hv : req.videoPresent = true) (hs : req.srtPresent = true)
    (vp sp op o e o' e' ty msg : List Char) (rc : Int) (hrc : rc ≠ 0)
    (sz : Nat) (hsz : sz ≠ 0) :
    (burn_subtitles req (Env.mk vp sp op (RunOutcome.completed 0 o e) true sz)).1
        = Response.sendFile op "video/mp4".toList
            "video_with_romanian_subs.mp4".toList ∧
    (burn_subtitles req (Env.mk vp sp op (RunOutcome.completed rc o' e') true sz)).1
        = Response.json 500
            [(kError, JVal.s mFfmpegFailed), (kReturnCode, JVal.n rc),
             (kStderr, JVal.s (lastChars 1000 e'))] ∧
    (burn_subtitles req (Env.mk vp sp op RunOutcome.timedOut true sz)).1
        = Response.json 408 [(kError, JVal.s mTimeout)] ∧
    (burn_subtitles req (Env.mk vp sp op (RunOutcome.spawnFailed ty msg) true sz)).1
        = Response.json 500
            [(kError, JVal.s mServerError), (kDetails, JVal.s msg),
             (kType, JVal.s ty)] ∧
    (burn_subtitles req (Env.mk vp sp op (RunOutcome.completed 0 o e) true sz)).1
        ≠ (burn_subtitles req (Env.mk vp sp op (RunOutcome.completed rc o' e') true sz)).1 ∧
    (burn_subtitles req (Env.mk vp sp op (RunOutcome.completed 0 o e) true sz)).1
        ≠ (burn_subtitles req (Env.mk vp sp op RunOutcome.timedOut true sz)).1 ∧
    (burn_subtitles req (Env.mk vp sp op (RunOutcome.completed 0 o e) true sz)).1
        ≠ (burn_subtitles req (Env.mk vp sp op (RunOutcome.spawnFailed ty msg) true sz)).1 ∧
    (burn_subtitles req (Env.mk vp sp op (RunOutcome.completed rc o' e') true sz)).1
        ≠ (burn_subtitles req (Env.mk vp sp op RunOutcome.timedOut true sz)).1 ∧
    (burn_subtitles req (Env.mk vp sp op (RunOutcome.completed rc o' e') true sz)).1
        ≠ (burn_subtitles req (Env.mk vp sp op (RunOutcome.spawnFailed ty msg) true sz)).1 ∧
    (burn_subtitles req (Env.mk vp sp op RunOutcome.timedOut true sz)).1
        ≠ (burn_subtitles req (Env.mk vp sp op (RunOutcome.spawnFailed ty msg) true sz)).1 := by
  have hSucc := burn_resp_success req (Env.mk vp sp op (RunOutcome.completed 0 o e) true sz)
    hv hs o e rfl rfl hsz
  have hFail := burn_resp_exitFail req (Env.mk vp sp op (RunOutcome.completed rc o' e') true sz)
    hv hs rc o' e' rfl hrc
  have hTime := burn_resp_timeout req (Env.mk vp sp op RunOutcome.timedOut true sz) hv hs rfl
  have hSpawn := burn_resp_spawnFailed req (Env.mk vp sp op (RunOutcome.spawnFailed ty msg) true sz)
    hv hs ty msg rfl
  refine ⟨hSucc, hFail, hTime, hSpawn, ?_, ?_, ?_, ?_, ?_, ?_⟩
  · rw [hSucc, hFail]
    intro hcon
    exact Response.noConfusion hcon
  · rw [hSucc, hTime]
    intro hcon
    exact Response.noConfusion hcon
  · rw [hSucc, hSpawn]
    intro hcon
    exact Response.noConfusion hcon
  · rw [hFail, hTime]
    intro hcon
    injection hcon with hst _
    exact absurd hst (by decide)
  · rw [hFail, hSpawn]
    intro hcon
    injection hcon with _ hbody
    injection hbody with hhead _
    injection hhead with _ hval
    injection hval with hmsg
    exact absurd hmsg (by decide)
  · rw [hTime, hSpawn]
    intro hcon
    injection hcon with hst _
    exact absurd hst (by decide)

/-- Witness for C4: the four terminal-state payloads at a concrete request
are pairwise distinct. -/
theorem c4_terminal_states_distinct_witness :
    (burn_subtitles (Request.mk true true [] [] 9 9)
        (Env.mk "v".toList "s".toList "o".toList (RunOutcome.completed 0 [] []) true 7)).1
      ≠ (burn_subtitles (Request.mk true true [] [] 9 9)
        (Env.mk "v".toList "s".toList "o".toList
          (RunOutcome.completed 1 [] "x".toList) true 7)).1 ∧
    (burn_subtitles (Request.mk true true [] [] 9 9)
        (Env.mk "v".toList "s".toList "o".toList (RunOutcome.completed 0 [] []) true 7)).1
      ≠ (burn_subtitles (Request.mk true true [] [] 9 9)
        (Env.mk "v".toList "s".toList "o".toList RunOutcome.timedOut true 7)).1 ∧
    (burn_subtitles (Request.mk true true [] [] 9 9)
        (Env.mk "v".toList "s".toList "o".toList (RunOutcome.completed 0 [] []) true 7)).1
      ≠ (burn_subtitles (Request.mk true true [] [] 9 9)
        (Env.mk "v".toList "s".toList "o".toList
          (RunOutcome.spawnFailed "FileNotFoundError".toList "m".toList) true 7)).1 ∧
    (burn_subtitles (Request.mk true true [] [] 9 9)
        (Env.mk "v".toList "s".toList "o".toList
          (RunOutcome.completed 1 [] "x".toList) true 7)).1
      ≠ (burn_subtitles (Request.mk true true [] [] 9 9)
        (Env.mk "v".toList "s".toList "o".toList RunOutcome.timedOut true 7)).1 ∧
    (burn_subtitles (Request.mk true true [] [] 9 9)
        (Env.mk "v".toList "s".toList "o".toList
          (RunOutcome.completed 1 [] "x".toList) true 7)).1
      ≠ (burn_subtitles (Request.mk true true [] [] 9 9)
        (Env.mk "v".toList "s".toList "o".toList
          (RunOutcome.spawnFailed "FileNotFoundError".toList "m".toList) true 7)).1 ∧
    (burn_subtitles (Request.mk true true [] [] 9 9)
        (Env.mk "v".toList "s".toList "o".toList RunOutcome.timedOut true 7)).1
      ≠ (burn_subtitles (Request.mk true true [] [] 9 9)
        (Env.mk "v".toList "s".toList "o".toList
          (RunOutcome.spawnFailed "FileNotFoundError".toList "m".toList) true 7)).1 :=
  (c4_terminal_states_distinct (Request.mk true true [] [] 9 9) rfl rfl
    "v".toList "s".toList "o".toList [] [] [] "x".toList
    "FileNotFoundError".toList "m".toList 1 (by decide) 7 (by decide)).2.2.2.2

/-- Claim C5: if the transcoder exits 0 but the output file is missing or
empty, the handler returns the corresponding distinct output-not-produced
500 payload and never declares success; a `send_file` success response is
returned only when the output file exists, has non-zero size, the exit
status was 0, and it streams exactly the staged output path. -/
theorem c5_output_validation (req : Request) (env : Env)
    (hv : req.videoPresent = true) (hs : req.srtPresent = true) :
    (∀ o e, env.outcome = RunOutcome.completed 0 o e → env.outputExists = false →
      (burn_subtitles req env).1 = Response.json 500 [(kError, JVal.s mNotCreated)]) ∧
    (∀ o e, env.outcome = RunOutcome.completed 0 o e → env.outputExists = true →
      env.outputSize = 0 →
      (burn_subtitles req env).1 = Response.json 500 [(kError, JVal.s mEmpty)]) ∧
    (∀ p m d, (burn_subtitles req env).1 = Response.sendFile p m d →
      env.outputExists = true ∧ env.outputSize ≠ 0 ∧ p = env.outputPath ∧
      ∃ o e, env.outcome = RunOutcome.completed 0 o e) := by
  refine ⟨?_, ?_, ?_⟩
  · intro o e ho he
    exact burn_resp_notCreated req env hv hs o e ho he
  · intro o e ho he hz
    exact burn_resp_emptyOutput req env hv hs o e ho he hz
  · intro p m d hresp
    cases hko : env.outcome with
    | timedOut =>
        rw [burn_resp_timeout req env hv hs hko] at hresp
        exact Response.noConfusion hresp
    | spawnFailed ty msg =>
        rw [burn_resp_spawnFailed req env hv hs ty msg hko] at hresp
        exact Response.noConfusion hresp
    | completed rc o e =>
        by_cases hrc : rc = 0
        · subst hrc
          by_cases he : env.outputExists = false
          · rw [burn_resp_notCreated req env hv hs o e hko he] at hresp
            exact Response.noConfusion hresp
          · have he' : env.outputExists = true := by simpa using he
            by_cases hz : env.outputSize = 0
            · rw [burn_resp_emptyOutput req env hv hs o e hko he' hz] at hresp
              exact Response.noConfusion hresp
            · rw [burn_resp_success req env hv hs o e hko he' hz] at hresp
              injection hresp with hp _
              exact ⟨he', hz, hp.symm, o, e, rfl⟩
        · rw [burn_resp_exitFail req env hv hs rc o e hko hrc] at hresp
          exact Response.noConfusion hresp

/-- Witness for C5: with exit status 0 and a pre-emptied (zero-byte)
output file the handler reports the empty-output error. -/
theorem c5_output_validation_witness :
    (burn_subtitles (Request.mk true true [] [] 4 4)
        (Env.mk "v".toList "s".toList "o".toList
          (RunOutcome.completed 0 [] []) true 0)).1
      = Response.json 500 [(kError, JVal.s mEmpty)] :=
  (c5_output_validation (Request.mk true true [] [] 4 4)
      (Env.mk "v".toList "s".toList "o".toList (RunOutcome.completed 0 [] []) true 0)
      rfl rfl).2.1 [] [] rfl rfl rfl

/-- Claim C6: on every exit path of a request that staged input files —
success, transcoder failure, timeout, spawn failure, missing or empty
output — the staged video and subtitle temp files are each removed exactly
once, and the whole trace has the single shared shape staging, transcoder
invocation, then the final cleanup suffix: one guaranteed-run finalizer,
not per-branch duplication. -/
theorem c6_staged_cleanup_once (req : Request) (env : Env)
    (hv : req.videoPresent = true) (hs : req.srtPresent = true)
    (hne : env.videoPath ≠ env.srtPath) :
    removeCount (burn_subtitles req env).2 env.videoPath = 1 ∧
    removeCount (burn_subtitles req env).2 env.srtPath = 1 ∧
    (burn_subtitles req env).2 =
      stagingTrace env
        ++ [FsEvent.runProc (ffmpegCmd env.videoPath env.srtPath env.outputPath)]
        ++ cleanupTrace env := by
  refine ⟨?_, ?_, burn_trace req env hv hs⟩
  · rw [burn_trace req env hv hs]
    simp [removeCount, stagingTrace, cleanupTrace, isRemoveOf, List.countP_append,
      List.countP_cons, beq_iff_eq, Ne.symm hne]
  · rw [burn_trace req env hv hs]
    simp [removeCount, stagingTrace, cleanupTrace, isRemoveOf, List.countP_append,
      List.countP_cons, beq_iff_eq, hne]

/-- Witness for C6 at a concrete timed-out request. -/
theorem c6_staged_cleanup_once_witness :
    removeCount (burn_subtitles (Request.mk true true [] [] 5 5)
        (Env.mk "v".toList "s".toList "o".toList
          RunOutcome.timedOut true 10)).2 "v".toList = 1 ∧
    removeCount (burn_subtitles (Request.mk true true [] [] 5 5)
        (Env.mk "v".toList "s".toList "o".toList
          RunOutcome.timedOut true 10)).2 "s".toList = 1 := by
  have h := c6_staged_cleanup_once (Request.mk true true [] [] 5 5)
    (Env.mk "v".toList "s".toList "o".toList RunOutcome.timedOut true 10)
    rfl rfl (by decide)
  exact ⟨h.1, h.2.1⟩

/-- Claim C7: a request missing the video part or the srt part is rejected
with the corresponding 400 client-error payload and an empty action trace:
no temp file is created, nothing is written or removed, and the transcoder
is never invoked. -/
theorem c7_missing_upload_early_reject (req : Request) (env : Env)
    (h : req.videoPresent = false ∨ req.srtPresent = false) :
    (burn_subtitles req env).2 = [] ∧
    ((burn_subtitles req env).1 = Response.json 400 [(kError, JVal.s mMissingVideo)] ∨
     (burn_subtitles req env).1 = Response.json 400 [(kError, JVal.s mMissingSrt)]) := by
  by_cases hvp : req.videoPresent = false
  · simp [burn_subtitles, hvp]
  · have hvp' : req.videoPresent = true := by simpa using hvp
    rcases h with h | h
    · exact absurd h hvp
    · simp [burn_subtitles, hvp', h]

/-- Witness for C7: a request with no srt part. -/
theorem c7_missing_upload_early_reject_witness :
    (burn_subtitles (Request.mk true false "a.mp4".toList [] 9 0)
        (Env.mk "v".toList "s".toList "o".toList
          RunOutcome.timedOut true 10)).2 = [] ∧
    ((burn_subtitles (Request.mk true false "a.mp4".toList [] 9 0)
        (Env.mk "v".toList "s".toList "o".toList RunOutcome.timedOut true 10)).1
        = Response.json 400 [(kError, JVal.s mMissingVideo)] ∨
     (burn_subtitles (Request.mk true false "a.mp4".toList [] 9 0)
        (Env.mk "v".toList "s".toList "o".toList RunOutcome.timedOut true 10)).1
        = Response.json 400 [(kError, JVal.s mMissingSrt)]) :=
  c7_missing_upload_early_reject (Request.mk true false "a.mp4".toList [] 9 0)
    (Env.mk "v".toList "s".toList "o".toList RunOutcome.timedOut true 10)
    (Or.inr rfl)

/-- Claim C8: the original uploaded filenames never influence the response
or the filesystem / process actions: two requests identical except for the
uploaded files' original names produce the same staged-path handling, the
same transcoder argument vector and the same response (the filenames are
used only in log lines, which are not part of either). -/
theorem c8_filename_noninterference (vp sp : Bool) (vs ss : Nat)
    (f₁ g₁ f₂ g₂ : List Char) (env : Env) :
    burn_subtitles (Request.mk vp sp f₁ g₁ vs ss) env
      = burn_subtitles (Request.mk vp sp f₂ g₂ vs ss) env := rfl

/-- Claim C9: the primary input argument following `-i` in the transcoder
command is the raw staged video path; the escaped video path (which the
handler computes) appears nowhere in the argument vector — only the
subtitle path is embedded escaped, inside the `-vf` value — and the
command so built is the one the handler runs. -/
theorem c9_raw_video_path (req : Request) (env : Env)
    (hv : req.videoPresent = true) (hs : req.srtPresent = true)
    (hc : ':' ∈ env.videoPath)
    (h1 : env.outputPath ≠ ffmpegEscape env.videoPath)
    (h2 : "subtitles=".toList ++ ffmpegEscape env.srtPath ≠ ffmpegEscape env.videoPath) :
    (ffmpegCmd env.videoPath env.srtPath env.outputPath)[2]? = some "-i".toList ∧
    (ffmpegCmd env.videoPath env.srtPath env.outputPath)[3]? = some env.videoPath ∧
    ffmpegEscape env.videoPath ∉ ffmpegCmd env.videoPath env.srtPath env.outputPath ∧
    FsEvent.runProc (ffmpegCmd env.videoPath env.srtPath env.outputPath)
      ∈ (burn_subtitles req env).2 := by
  have hbs : '\\' ∈ ffmpegEscape env.videoPath := backslash_mem_ffmpegEscape _ hc
  have hne : ffmpegEscape env.videoPath ≠ env.videoPath :=
    ffmpegEscape_ne_self_of_colon _ hc
  refine ⟨rfl, rfl, ?_, ?_⟩
  · intro hmem
    simp only [ffmpegCmd, List.mem_cons, List.not_mem_nil, or_false] at hmem
    rcases hmem with h | h | h | h | h | h | h | h | h | h | h | h | h | h | h
    · exact absurd (h ▸ hbs) (by decide)
    · exact absurd (h ▸ hbs) (by decide)
    · exact absurd (h ▸ hbs) (by decide)
    · exact hne h
    · exact absurd (h ▸ hbs) (by decide)
    · exact h2 h.symm
    · exact absurd (h ▸ hbs) (by decide)
    · exact absurd (h ▸ hbs) (by decide)
    · exact absurd (h ▸ hbs) (by decide)
    · exact absurd (h ▸ hbs) (by decide)
    · exact absurd (h ▸ hbs) (by decide)
    · exact absurd (h ▸ hbs) (by decide)
    · exact absurd (h ▸ hbs) (by decide)
    · exact absurd (h ▸ hbs) (by decide)
    · exact h1 h.symm
  · rw [burn_trace req env hv hs]
    simp [stagingTrace, cleanupTrace]

/-- Witness for C9 at a concrete colon-containing staged video path. -/
theorem c9_raw_video_path_witness :
    (ffmpegCmd "C:/v.mp4".toList "s.srt".toList "o.mp4".toList)[3]?
        = some "C:/v.mp4".toList ∧
    ffmpegEscape "C:/v.mp4".toList
      ∉ ffmpegCmd "C:/v.mp4".toList "s.srt".toList "o.mp4".toList := by
  have h := c9_raw_video_path (Request.mk true true [] [] 3 3)
    (Env.mk "C:/v.mp4".toList "s.srt".toList "o.mp4".toList
      RunOutcome.timedOut true 10)
    rfl rfl (by decide) (by decide) (by decide)
  exact ⟨h.2.1, h.2.2.1⟩

end SubtitleBurner
